import Mathlib

/-!
Shallow embedding of the "Muse" AI story-writing client
(src/services/geminiService.ts, src/App.tsx, src/components/ChatInterface.tsx,
src/components/ImageUpload.tsx, src/types.ts).

The generative-AI provider is external: each service function is parameterised
by the endpoint's outcome (an `Except` value), mirroring the awaited network
call.  Text is modelled by Lean `String`, JS `undefined`-able fields by
`Option`, and thrown exceptions by `Except.error`.
-/

namespace Muse

/-- A transport or endpoint failure raised by the external AI provider. -/
inductive ApiError where
  | transport (msg : String)
  deriving DecidableEq, Repr

/-- Message role, from src/types.ts: role is 'user' or 'model'. -/
inductive Role where
  | user
  | model
  deriving DecidableEq, Repr

/-- src/types.ts ChatMessage: id, role, text. -/
structure ChatMessage where
  id : String
  role : Role
  text : String
  deriving DecidableEq, Repr

/-- A part of a wire-level history turn: the object with a text field. -/
structure Part where
  text : String
  deriving DecidableEq, Repr

/-- Wire-level conversation turn sent to the chat endpoint:
role plus a list of text parts. -/
structure ConversationTurn where
  role : Role
  parts : List Part
  deriving DecidableEq, Repr

/-- Inline data block of a generateContent request: mimeType and base64 data. -/
structure InlineData where
  mimeType : String
  data : String
  deriving DecidableEq, Repr

/-- A request part: either inline image data or a text prompt. -/
inductive ReqPart where
  | inline (d : InlineData)
  | text (t : String)
  deriving DecidableEq, Repr

/-- The generateContent request issued by generateStoryFromImage. -/
structure GenerateContentRequest where
  model : String
  parts : List ReqPart
  deriving DecidableEq, Repr

/-- The endpoint response to a story-generation request: the text field may be
absent (JS undefined). -/
structure GenerateTextResponse where
  text : Option String
  deriving DecidableEq, Repr

/-- JS regex word character for the data-URI header pattern:
`\w` = [A-Za-z0-9_]. -/
def isWordChar (c : Char) : Bool :=
  c.isAlphanum || c = '_'

/-- Consume a literal pattern from the front of a list; `none` when the list
does not start with the pattern. -/
def dropLit : List Char → List Char → Option (List Char)
  | [], l => some l
  | _ :: _, [] => none
  | p :: ps, c :: cs => if c = p then dropLit ps cs else none

/-- Core of the regex replace in generateStoryFromImage:
`base64Image.replace(/^data:image\/\w+;base64,/, "")` on the character list.
The anchored pattern is `data:image/` then one or more word characters then
`;base64,`; on a match the matched leading run is removed, otherwise the
input is returned unchanged. -/
def stripCore (l : List Char) : List Char :=
  match dropLit "data:image/".data l with
  | none => l
  | some rest =>
    let run := rest.takeWhile isWordChar
    if run.isEmpty then l
    else
      match dropLit ";base64,".data (rest.dropWhile isWordChar) with
      | none => l
      | some tail => tail

/-- String-level wrapper of `stripCore`: the header-cleaning step of
generateStoryFromImage. -/
def stripDataUriHeader (s : String) : String :=
  String.mk (stripCore s.data)

/-- The fixed instructional prompt sent with the image. -/
def storyPrompt : String :=
  "Analyze the mood, lighting, and details of this image. Then, act as a master storyteller. Write a compelling, atmospheric opening paragraph (approx 150 words) for a story set in this scene. Focus on sensory details and establishing the tone."

/-- Fixed model identifier used for story generation and chat. -/
def storyModelId : String := "gemini-3-pro-preview"

/-- Fallback returned when the endpoint yields no (or empty) text. -/
def storyFallback : String := "I couldn't generate a story at this time."

/-- The request generateStoryFromImage sends: inline image (with the data-URI
header stripped) followed by the fixed prompt. -/
def generateStoryRequest (base64Image mimeType : String) : GenerateContentRequest :=
  { model := storyModelId
    parts := [ReqPart.inline ⟨mimeType, stripDataUriHeader base64Image⟩,
              ReqPart.text storyPrompt] }

/-- generateStoryFromImage (src/services/geminiService.ts): on transport
failure the error is logged and rethrown; on success `response.text ||
fallback` is returned, where the JS `||` replaces both an absent and an
empty text field by the fallback string. -/
def generateStoryFromImage (base64Image mimeType : String)
    (resp : Except ApiError GenerateTextResponse) : Except ApiError String :=
  match resp with
  | Except.error e => Except.error e
  | Except.ok r =>
    Except.ok (match r.text with
      | some t => if t = "" then storyFallback else t
      | none => storyFallback)

/-- Inline data block of a speech response part; the data field may be absent. -/
structure RespInlineData where
  data : Option String
  deriving DecidableEq, Repr

/-- A part of a speech response candidate's content. -/
structure RespPart where
  inlineData : Option RespInlineData
  deriving DecidableEq, Repr

/-- Content of a speech response candidate; the parts list may be absent. -/
structure Content where
  parts : Option (List RespPart)
  deriving DecidableEq, Repr

/-- One candidate of a speech response; content may be absent. -/
structure Candidate where
  content : Option Content
  deriving DecidableEq, Repr

/-- The speech endpoint response: the candidates list may be absent. -/
structure SpeechResponse where
  candidates : Option (List Candidate)
  deriving DecidableEq, Repr

/-- The optional-chain extraction
`response.candidates?.[0]?.content?.parts?.[0]?.inlineData?.data`. -/
def extractBase64Audio (r : SpeechResponse) : Option String :=
  match r.candidates with
  | none => none
  | some cs =>
    match cs.head? with
    | none => none
    | some c =>
      match c.content with
      | none => none
      | some ct =>
        match ct.parts with
        | none => none
        | some ps =>
          match ps.head? with
          | none => none
          | some p =>
            match p.inlineData with
            | none => none
            | some d => d.data

/-- Raw audio bytes. Modelled from the spec: utils/audioUtils is not under
src/; the spec says only that base64-encoded audio bytes are decoded, so
bytes are represented abstractly by the base64 text they decode from. -/
structure RawBytes where
  b64 : String
  deriving DecidableEq, Repr

/-- Modelled from the spec: `decodeBase64` of utils/audioUtils (missing from
src/) decodes a base64 string into raw bytes. -/
def decodeBase64 (s : String) : RawBytes := ⟨s⟩

/-- The audio context generateSpeech constructs, carrying its fixed sample
rate. -/
structure AudioContextModel where
  sampleRate : Nat
  deriving DecidableEq, Repr

/-- A decoded PCM audio buffer: the sample rate of the decoding context and
the decoded bytes. -/
structure AudioBuf where
  sampleRate : Nat
  pcm : RawBytes
  deriving DecidableEq, Repr

/-- Modelled from the spec: `decodeAudioData` of utils/audioUtils (missing
from src/) decodes raw bytes into a linear PCM audio buffer using the given
audio context, hence at that context's sample rate. -/
def decodeAudioData (bytes : RawBytes) (ctx : AudioContextModel) : AudioBuf :=
  ⟨ctx.sampleRate, bytes⟩

/-- generateSpeech (src/services/geminiService.ts): transport failure is
logged and rethrown; a response whose optional chain yields no data, or an
empty (JS-falsy) data string, gives `null` (here `Except.ok none`); otherwise
the base64 payload is decoded with an AudioContext constructed at a fixed
24000 Hz sample rate. -/
def generateSpeech (text : String)
    (resp : Except ApiError SpeechResponse) : Except ApiError (Option AudioBuf) :=
  match resp with
  | Except.error e => Except.error e
  | Except.ok r =>
    match extractBase64Audio r with
    | none => Except.ok none
    | some b64 =>
      if b64 = "" then Except.ok none
      else Except.ok (some (decodeAudioData (decodeBase64 b64) ⟨24000⟩))

/-- Optional image context accepted (and ignored) by sendChatMessage. -/
structure ImageContext where
  base64 : String
  mimeType : String
  deriving DecidableEq, Repr

/-- The fixed system persona instruction of the chat session. -/
def chatSystemInstruction : String :=
  "You are a helpful and creative writing assistant (Co-author). You help the user develop their story, offering ideas, answering questions about the plot, characters, or the world generated from the image. Keep answers concise but inspiring."

/-- Fixed apology returned when any chat error is caught. -/
def chatApology : String := "I'm having trouble connecting to the muse right now."

/-- The request sendChatMessage issues: chat session created with the model
id, the full history and the system instruction, then the new message sent
as the next turn.  The imageContext argument is never used by the code. -/
structure ChatRequest where
  model : String
  history : List ConversationTurn
  systemInstruction : String
  message : String
  deriving DecidableEq, Repr

/-- Request construction inside sendChatMessage. -/
def buildChatRequest (history : List ConversationTurn) (newMessage : String)
    (imageContext : Option ImageContext) : ChatRequest :=
  { model := storyModelId
    history := history
    systemInstruction := chatSystemInstruction
    message := newMessage }

/-- sendChatMessage (src/services/geminiService.ts): any error is caught and
converted to the fixed apology string; on success the reply text is
returned.  The endpoint is the external chat service. -/
def sendChatMessage (history : List ConversationTurn) (newMessage : String)
    (imageContext : Option ImageContext)
    (endpoint : ChatRequest → Except ApiError String) : String :=
  match endpoint (buildChatRequest history newMessage imageContext) with
  | Except.ok t => t
  | Except.error _ => chatApology

/-- Initial transcript of ChatInterface: the hard-coded greeting message. -/
def initialChatMessages : List ChatMessage :=
  [⟨"1", Role.model, "Hello! I am your co-author. Feel free to ask me questions about the story world or for ideas on how to continue."⟩]

/-- Conversion of a UI ChatMessage to the wire-level turn:
`role` plus `parts: [{ text }]`. -/
def toApiTurn (m : ChatMessage) : ConversationTurn :=
  ⟨m.role, [⟨m.text⟩]⟩

/-- The grounding clause built on the first real chat turn:
the template literal of ChatInterface.handleSend. -/
def groundedMessage (ctx input : String) : String :=
  "Context: The story so far is: \"" ++ ctx ++ "\". \n\n User Question: " ++ input

/-- The message text handleSend transmits: the grounding clause when the
transcript still holds only the initial greeting (messages.length === 1)
and the seed story is JS-truthy (present and non-empty); the raw input
otherwise. -/
def computeFinalInput (messages : List ChatMessage) (seedStory : Option String)
    (input : String) : String :=
  match seedStory with
  | some ctx =>
    if messages.length = 1 && ctx != "" then groundedMessage ctx input else input
  | none => input

/-- JS String.prototype.trim on the character list: drop whitespace from
both ends. -/
def trimChars (l : List Char) : List Char :=
  ((l.dropWhile Char.isWhitespace).reverse.dropWhile Char.isWhitespace).reverse

/-- JS String.prototype.trim, as used by the blank-input guard of
handleSend. -/
def jsTrim (s : String) : String :=
  String.mk (trimChars s.data)

/-- Local state of ChatInterface: transcript, input box, loading flag. -/
structure ChatUiState where
  messages : List ChatMessage
  input : String
  isLoading : Bool
  deriving DecidableEq, Repr

/-- The request handleSend causes sendChatMessage to issue: the mapped
history and the computed final input (no image context is passed). -/
def sentChatRequest (st : ChatUiState) (seedStory : Option String) : ChatRequest :=
  buildChatRequest (st.messages.map toApiTurn)
    (computeFinalInput st.messages seedStory st.input) none

/-- ChatInterface.handleSend: bail out on blank input or while loading;
otherwise append the user message, compute the (possibly grounded) final
input, call sendChatMessage, and append the reply as a model message.
`now` models Date.now(): the user id is `toString now`, the bot id
`toString (now + 1)`.  sendChatMessage is total, so both appends always
happen. -/
def handleSend (st : ChatUiState) (seedStory : Option String) (now : Nat)
    (endpoint : ChatRequest → Except ApiError String) : ChatUiState :=
  if jsTrim st.input = "" || st.isLoading then st
  else
    let userMsg : ChatMessage := ⟨toString now, Role.user, st.input⟩
    let responseText :=
      sendChatMessage (st.messages.map toApiTurn)
        (computeFinalInput st.messages seedStory st.input) none endpoint
    let botMsg : ChatMessage := ⟨toString (now + 1), Role.model, responseText⟩
    { messages := st.messages ++ [userMsg, botMsg], input := "", isLoading := false }

/-- App-level session state (src/App.tsx useState hooks). -/
structure AppState where
  image : Option String
  mimeType : String
  story : String
  isGenerating : Bool
  audioBuffer : Option AudioBuf
  isPlaying : Bool
  deriving DecidableEq, Repr

/-- The initial App state: no image, empty story, nothing cached or playing. -/
def initialAppState : AppState :=
  ⟨none, "", "", false, none, false⟩

/-- Fixed message shown when story generation fails. -/
def storyErrorMessage : String :=
  "Sorry, I was unable to read the stars for this image. Please try again."

/-- First half of handleImageSelected, before the await: set the image and
mime type, reset the story, clear the audio buffer, raise isGenerating. -/
def startImageSelected (s : AppState) (base64 typ : String) : AppState :=
  { s with image := some base64, mimeType := typ, story := "",
           audioBuffer := none, isGenerating := true }

/-- Second half of handleImageSelected: on success store the generated
story, on failure store the fixed error message; the finally block lowers
isGenerating either way. -/
def finishImageSelected (s : AppState) (result : Except ApiError String) : AppState :=
  match result with
  | Except.ok t => { s with story := t, isGenerating := false }
  | Except.error _ => { s with story := storyErrorMessage, isGenerating := false }

/-- handleImageSelected (src/App.tsx), as the composite of its two halves
with the awaited generateStoryFromImage outcome in between. -/
def handleImageSelected (s : AppState) (base64 typ : String)
    (result : Except ApiError String) : AppState :=
  finishImageSelected (startImageSelected s base64 typ) result

/-- stopAudio: stop the source node and lower isPlaying. -/
def stopAudio (s : AppState) : AppState :=
  { s with isPlaying := false }

/-- playBuffer: start the source node and raise isPlaying. -/
def playBuffer (s : AppState) : AppState :=
  { s with isPlaying := true }

/-- handleReadAloud (src/App.tsx), with the awaited generateSpeech outcome
passed in: toggle off while playing; no-op on empty story; replay a cached
buffer; otherwise cache-and-play a freshly synthesized buffer, or keep the
state unchanged when synthesis yields null or throws (the catch only
logs). -/
def handleReadAloud (s : AppState)
    (speechResult : Except ApiError (Option AudioBuf)) : AppState :=
  if s.isPlaying then stopAudio s
  else if s.story = "" then s
  else
    match s.audioBuffer with
    | some _ => playBuffer s
    | none =>
      match speechResult with
      | Except.ok (some b) => playBuffer { s with audioBuffer := some b }
      | Except.ok none => s
      | Except.error _ => s

/-- handleReset (src/App.tsx): stop audio, drop the image, the story and
the cached buffer. -/
def handleReset (s : AppState) : AppState :=
  { stopAudio s with image := none, story := "", audioBuffer := none }

/-- The UI phases of the spec's state machine.  There is no error
constructor: the state machine has no explicit error state. -/
inductive UiPhase where
  | idle
  | storyGenerating
  | storyReady
  | audioPlaying
  deriving DecidableEq, Repr

/-- Phase of an App state as rendered by src/App.tsx: upload screen without
an image, spinner while generating, otherwise the story view (playing or
ready). -/
def uiPhase (s : AppState) : UiPhase :=
  match s.image with
  | none => UiPhase.idle
  | some _ =>
    if s.isGenerating then UiPhase.storyGenerating
    else if s.isPlaying then UiPhase.audioPlaying
    else UiPhase.storyReady

/-- One user-driven transition of the App session: selecting an image (with
an arbitrary endpoint outcome fed through generateStoryFromImage), pressing
read-aloud (with an arbitrary speech endpoint outcome fed through
generateSpeech on the current story), playback ending, or reset. -/
inductive Step : AppState → AppState → Prop
  | imageSelected (s : AppState) (base64 typ : String)
      (resp : Except ApiError GenerateTextResponse) :
      Step s (handleImageSelected s base64 typ (generateStoryFromImage base64 typ resp))
  | readAloud (s : AppState) (resp : Except ApiError SpeechResponse) :
      Step s (handleReadAloud s (generateSpeech s.story resp))
  | audioEnded (s : AppState) :
      Step s { s with isPlaying := false }
  | reset (s : AppState) :
      Step s (handleReset s)

/-- App states reachable from the initial state by user-driven transitions. -/
inductive Reachable : AppState → Prop
  | init : Reachable initialAppState
  | step {s s' : AppState} : Reachable s → Step s s' → Reachable s'

/-- The cached buffer, when present, is one that a successful synthesis call
on the current story could have produced. -/
def bufferFromCurrentStory (s : AppState) : Prop :=
  ∀ b, s.audioBuffer = some b →
    ∃ resp, generateSpeech s.story resp = Except.ok (some b)

/-- Concrete speech response carrying one inline base64 audio payload, used
to instantiate the speech theorems. -/
def sampleSpeechResponse : SpeechResponse :=
  { candidates := some [{ content := some { parts := some [{ inlineData := some { data := some "QUJD" } }] } }] }

/-- Claim C2: for every history, new message and image context, whenever the
conversational endpoint fails on the issued request, sendChatMessage returns
the fixed apology string "I'm having trouble connecting to the muse right
now." rather than propagating the error; being a total function into String,
it can raise no exception. -/
theorem sendChatMessage_never_fails (history : List ConversationTurn)
    (newMessage : String) (c : Option ImageContext)
    (f : ChatRequest → Except ApiError String) (e : ApiError)
    (h : f (buildChatRequest history newMessage c) = Except.error e) :
    sendChatMessage history newMessage c f = chatApology := by
  simp [sendChatMessage, h]

/-- Witness for C2: a forced transport failure yields the apology string. -/
theorem sendChatMessage_never_fails_witness :
    sendChatMessage [] "Hi" none
      (fun _ => Except.error (ApiError.transport "network down")) = chatApology :=
  sendChatMessage_never_fails [] "Hi" none
    (fun _ => Except.error (ApiError.transport "network down"))
    (ApiError.transport "network down") rfl

/-- Claim C3: for any text input, when the speech endpoint's response lacks
an inline audio payload under the nested candidate structure, generateSpeech
returns null (here `Except.ok none`) rather than throwing. -/
theorem generateSpeech_null_on_missing_audio (text : String) (r : SpeechResponse)
    (h : extractBase64Audio r = none) :
    generateSpeech text (Except.ok r) = Except.ok none := by
  simp [generateSpeech, h]

/-- Witness for C3: a response with no candidates yields null. -/
theorem generateSpeech_null_on_missing_audio_witness :
    generateSpeech "A quiet morning." (Except.ok ⟨none⟩) = Except.ok none :=
  generateSpeech_null_on_missing_audio "A quiet morning." ⟨none⟩ rfl

/-- Claim C4: for every image payload and every endpoint response,
generateStoryFromImage returns either the non-empty text field of the
response or the fixed fallback string; it never returns an absent or empty
string without substituting the fallback. -/
theorem generateStory_text_or_fallback (base64Image mimeType : String)
    (r : GenerateTextResponse) :
    ∃ out, generateStoryFromImage base64Image mimeType (Except.ok r) = Except.ok out
      ∧ out ≠ "" ∧ (out = storyFallback ∨ r.text = some out) := by
  cases h : r.text with
  | none =>
    exact ⟨storyFallback, by simp [generateStoryFromImage, h], by decide, Or.inl rfl⟩
  | some t =>
    by_cases ht : t = ""
    · exact ⟨storyFallback, by simp [generateStoryFromImage, h, ht], by decide, Or.inl rfl⟩
    · exact ⟨t, by simp [generateStoryFromImage, h, ht], ht, Or.inr rfl⟩

/-- Claim C9: whenever the speech endpoint returns a present, non-empty
base64 audio payload, generateSpeech decodes it via decodeAudioData with an
audio context fixed at a 24000 Hz sample rate, so the returned buffer's
sample rate is 24000. -/
theorem generateSpeech_decodes_at_24000 (text : String) (r : SpeechResponse)
    (b64 : String) (h1 : extractBase64Audio r = some b64) (h2 : b64 ≠ "") :
    ∃ buf, generateSpeech text (Except.ok r) = Except.ok (some buf)
      ∧ buf = decodeAudioData (decodeBase64 b64) ⟨24000⟩
      ∧ buf.sampleRate = 24000 :=
  ⟨decodeAudioData (decodeBase64 b64) ⟨24000⟩, by simp [generateSpeech, h1, h2],
   rfl, rfl⟩

/-- Witness for C9: a concrete response with payload "QUJD" decodes to a
24000 Hz buffer. -/
theorem generateSpeech_decodes_at_24000_witness :
    ∃ buf, generateSpeech "A quiet morning." (Except.ok sampleSpeechResponse)
        = Except.ok (some buf)
      ∧ buf = decodeAudioData (decodeBase64 "QUJD") ⟨24000⟩
      ∧ buf.sampleRate = 24000 :=
  generateSpeech_decodes_at_24000 "A quiet morning." sampleSpeechResponse "QUJD"
    rfl (by decide)

/-- Claim C10: sendChatMessage is independent of its imageContext argument:
two runs differing only in the image context issue the identical request and
return the identical value. -/
theorem sendChatMessage_ignores_imageContext (history : List ConversationTurn)
    (newMessage : String) (c₁ c₂ : Option ImageContext)
    (f : ChatRequest → Except ApiError String) :
    buildChatRequest history newMessage c₁ = buildChatRequest history newMessage c₂
    ∧ sendChatMessage history newMessage c₁ f = sendChatMessage history newMessage c₂ f :=
  ⟨rfl, rfl⟩

/-- Claim C1: on the first chat turn — the transcript still holds only the
hard-coded greeting, i.e. there is no conversation history yet — with a
non-empty seed story S and user message M, the transmitted message text is
exactly the grounding clause containing S followed by M; on every state
whose transcript is not in that first-turn shape (in particular after any
completed turn, when its length exceeds 1) the input is transmitted
unmodified. -/
theorem firstTurn_grounding :
    (∀ S M : String, S ≠ "" →
      (sentChatRequest ⟨initialChatMessages, M, false⟩ (some S)).message
        = "Context: The story so far is: \"" ++ S ++ "\". \n\n User Question: " ++ M)
    ∧ (∀ (st : ChatUiState) (seed : Option String), st.messages.length ≠ 1 →
        (sentChatRequest st seed).message = st.input) := by
  constructor
  · intro S M hS
    simp [sentChatRequest, buildChatRequest, computeFinalInput, initialChatMessages,
          hS, groundedMessage]
  · intro st seed hlen
    cases seed with
    | none => rfl
    | some ctx =>
      simp [sentChatRequest, buildChatRequest, computeFinalInput, hlen]

/-- Witness for C1: the spec's end-to-end scenario 3, plus a non-first-turn
state transmitting its input unmodified. -/
theorem firstTurn_grounding_witness :
    (("A dragon slept." : String) ≠ ""
      ∧ (sentChatRequest ⟨initialChatMessages, "What color is the dragon?", false⟩
            (some "A dragon slept.")).message
        = "Context: The story so far is: \"A dragon slept.\". \n\n User Question: What color is the dragon?")
    ∧ (sentChatRequest ⟨[], "Hi", false⟩ (some "A dragon slept.")).message = "Hi" := by
  refine ⟨⟨by decide, ?_⟩, ?_⟩
  · rw [firstTurn_grounding.1 "A dragon slept." "What color is the dragon?" (by decide)]
    decide
  · exact firstTurn_grounding.2 ⟨[], "Hi", false⟩ (some "A dragon slept.") (by decide)

/-- Claim C6: from any transcript of N prior entries, a send with non-blank
input while not loading appends exactly the user message and then the model
reply, yielding N + 2 entries with all prior entries unchanged. -/
theorem handleSend_roundtrip (st : ChatUiState) (seed : Option String) (now : Nat)
    (f : ChatRequest → Except ApiError String)
    (h1 : jsTrim st.input ≠ "") (h2 : st.isLoading = false) :
    ∃ reply,
      (handleSend st seed now f).messages
        = st.messages ++ [⟨toString now, Role.user, st.input⟩,
                          ⟨toString (now + 1), Role.model, reply⟩]
      ∧ (handleSend st seed now f).messages.length = st.messages.length + 2 := by
  refine ⟨sendChatMessage (st.messages.map toApiTurn)
      (computeFinalInput st.messages seed st.input) none f, ?_, ?_⟩
  · simp [handleSend, h1, h2]
  · simp [handleSend, h1, h2]

/-- Witness for C6: a concrete send from the initial transcript appends the
user turn and the reply. -/
theorem handleSend_roundtrip_witness :
    ∃ reply,
      (handleSend ⟨initialChatMessages, "Hi", false⟩ none 5
          (fun _ => Except.ok "Hello")).messages
        = initialChatMessages ++ [⟨toString 5, Role.user, "Hi"⟩,
                                  ⟨toString (5 + 1), Role.model, reply⟩]
      ∧ (handleSend ⟨initialChatMessages, "Hi", false⟩ none 5
          (fun _ => Except.ok "Hello")).messages.length
        = initialChatMessages.length + 2 :=
  handleSend_roundtrip ⟨initialChatMessages, "Hi", false⟩ none 5
    (fun _ => Except.ok "Hello") (by decide) rfl

/-- Inline data of the first part of the issued story request, for stating
what is transmitted. -/
def requestData (req : GenerateContentRequest) : Option InlineData :=
  match req.parts with
  | ReqPart.inline d :: _ => some d
  | _ => none

/-- Claim C7: selecting an image first enters StoryGenerating, and the
completed handler always lands in StoryReady whether generation succeeded
or failed; on failure the story is the fixed "unable to read the stars"
message and isGenerating is false.  The UiPhase type has no error
constructor, so no explicit error state exists. -/
theorem imageSelected_reaches_storyReady (s : AppState) (base64 typ : String)
    (r : Except ApiError String) (hp : s.isPlaying = false) :
    uiPhase (startImageSelected s base64 typ) = UiPhase.storyGenerating
    ∧ uiPhase (handleImageSelected s base64 typ r) = UiPhase.storyReady
    ∧ (handleImageSelected s base64 typ r).isGenerating = false
    ∧ (∀ e, r = Except.error e →
        (handleImageSelected s base64 typ r).story = storyErrorMessage) := by
  refine ⟨by simp [uiPhase, startImageSelected], ?_, ?_, ?_⟩
  · cases r with
    | ok t =>
      simp [uiPhase, handleImageSelected, startImageSelected, finishImageSelected, hp]
    | error e =>
      simp [uiPhase, handleImageSelected, startImageSelected, finishImageSelected, hp]
  · cases r with
    | ok t => simp [handleImageSelected, startImageSelected, finishImageSelected]
    | error e => simp [handleImageSelected, startImageSelected, finishImageSelected]
  · intro e he
    subst he
    simp [handleImageSelected, startImageSelected, finishImageSelected]

/-- Witness for C7: a failed generation from the initial state still lands
in StoryReady with the fixed error story. -/
theorem imageSelected_reaches_storyReady_witness :
    uiPhase (startImageSelected initialAppState "img" "image/png")
      = UiPhase.storyGenerating
    ∧ uiPhase (handleImageSelected initialAppState "img" "image/png"
        (Except.error (ApiError.transport "boom"))) = UiPhase.storyReady
    ∧ (handleImageSelected initialAppState "img" "image/png"
        (Except.error (ApiError.transport "boom"))).isGenerating = false
    ∧ (∀ e, (Except.error (ApiError.transport "boom") : Except ApiError String)
            = Except.error e →
        (handleImageSelected initialAppState "img" "image/png"
          (Except.error (ApiError.transport "boom"))).story = storyErrorMessage) :=
  imageSelected_reaches_storyReady initialAppState "img" "image/png"
    (Except.error (ApiError.transport "boom")) rfl

/-- The characters of a data-URI header for an image subtype:
`data:image/` then the subtype then `;base64,`. -/
def dataUriHeaderChars (subtype : List Char) : List Char :=
  "data:image/".data ++ subtype ++ ";base64,".data

/-- Consuming a literal from a list starting with it leaves the remainder. -/
theorem dropLit_self_append (p l : List Char) : dropLit p (p ++ l) = some l := by
  induction p with
  | nil => rfl
  | cons a ps ih => simp [dropLit, ih]

/-- Splitting a word-character run followed by a semicolon: takeWhile keeps
exactly the run and dropWhile leaves the semicolon and the rest. -/
theorem takeWhile_word_semicolon (l rest : List Char)
    (h : ∀ c ∈ l, isWordChar c = true) :
    (l ++ ';' :: rest).takeWhile isWordChar = l
    ∧ (l ++ ';' :: rest).dropWhile isWordChar = ';' :: rest := by
  induction l with
  | nil =>
    have hsemi : isWordChar ';' = false := by decide
    constructor <;> simp [List.takeWhile_cons, List.dropWhile_cons, hsemi]
  | cons a as ih =>
    have ha : isWordChar a = true := h a (List.mem_cons_self a as)
    have ih' := ih (fun c hc => h c (List.mem_cons_of_mem a hc))
    constructor <;>
      simp [List.takeWhile_cons, List.dropWhile_cons, ha, ih'.1, ih'.2]

/-- The regex core removes exactly a well-formed data-URI image header. -/
theorem stripCore_header (subtype payload : List Char)
    (h1 : subtype ≠ []) (h2 : ∀ c ∈ subtype, isWordChar c = true) :
    stripCore (dataUriHeaderChars subtype ++ payload) = payload := by
  have hshape : dataUriHeaderChars subtype ++ payload
      = "data:image/".data ++ (subtype ++ (';' :: ("base64,".data ++ payload))) := by
    simp [dataUriHeaderChars, List.append_assoc]
  have hd := dropLit_self_append "data:image/".data
    (subtype ++ (';' :: ("base64,".data ++ payload)))
  have htw := takeWhile_word_semicolon subtype ("base64,".data ++ payload) h2
  have hrun : subtype.isEmpty = false := by
    cases subtype with
    | nil => exact absurd rfl h1
    | cons a as => rfl
  have htail : dropLit ";base64,".data (';' :: ("base64,".data ++ payload))
      = some payload := dropLit_self_append ";base64,".data payload
  rw [hshape]
  unfold stripCore
  rw [hd]
  simp only [htw.1, htw.2, hrun, htail]
  rfl

/-- Claim C5: for any input image string carrying a data-URI header of an
image MIME type (subtype a non-empty run of word characters, as the source
regex matches), generateStoryFromImage strips the header before
transmission: the inline data field of the issued request is the bare
base64 payload. -/
theorem generateStory_strips_header (mimeType : String) (subtype payload : List Char)
    (h1 : subtype ≠ []) (h2 : ∀ c ∈ subtype, isWordChar c = true) :
    requestData (generateStoryRequest
        (String.mk (dataUriHeaderChars subtype ++ payload)) mimeType)
      = some ⟨mimeType, String.mk payload⟩ := by
  simp [requestData, generateStoryRequest, stripDataUriHeader,
        stripCore_header subtype payload h1 h2]

/-- Witness for C5: a png data-URI header is stripped down to the payload. -/
theorem generateStory_strips_header_witness :
    ("png".data ≠ [] ∧ ∀ c ∈ "png".data, isWordChar c = true)
    ∧ requestData (generateStoryRequest
        (String.mk (dataUriHeaderChars "png".data ++ "QUJD".data)) "image/png")
      = some ⟨"image/png", String.mk "QUJD".data⟩ :=
  ⟨⟨by decide, by decide⟩,
   generateStory_strips_header "image/png" "png".data "QUJD".data
     (by decide) (by decide)⟩

/-- Selecting a new image always ends with no cached buffer: the handler
clears it up front and neither outcome branch restores it. -/
theorem imageSelected_clears_buffer (s : AppState) (base64 typ : String)
    (r : Except ApiError String) :
    (handleImageSelected s base64 typ r).audioBuffer = none := by
  cases r <;>
    simp [handleImageSelected, startImageSelected, finishImageSelected]

/-- Reset always ends with no cached buffer. -/
theorem reset_clears_buffer (s : AppState) :
    (handleReset s).audioBuffer = none := rfl

/-- Claim C8: in every reachable App state the cached audio buffer, when
present, is one a successful synthesis call on the current story could have
produced; and both reset and every new image selection leave the cached
buffer cleared. -/
theorem cachedBuffer_invariant (s : AppState) :
    (Reachable s → bufferFromCurrentStory s)
    ∧ (handleReset s).audioBuffer = none
    ∧ (∀ base64 typ r, (handleImageSelected s base64 typ r).audioBuffer = none) := by
  refine ⟨?_, reset_clears_buffer s, fun b64 typ r => imageSelected_clears_buffer s b64 typ r⟩
  intro hs
  induction hs with
  | init =>
    intro b hb
    simp [initialAppState] at hb
  | @step t t' hr hstep ih =>
    cases hstep with
    | imageSelected b64 typ resp =>
      intro b hb
      rw [imageSelected_clears_buffer] at hb
      exact absurd hb (by simp)
    | readAloud resp =>
      by_cases hp : t.isPlaying = true
      · intro b hb
        simp [handleReadAloud, hp, stopAudio] at hb ⊢
        exact ih b hb
      · by_cases hst : t.story = ""
        · intro b hb
          simp [handleReadAloud, hp, hst] at hb ⊢
          exact ih b hb
        · cases hbuf : t.audioBuffer with
          | some a =>
            intro b hb
            simp [handleReadAloud, hp, hst, hbuf, playBuffer] at hb ⊢
            exact ih b (by rw [hbuf, hb])
          | none =>
            cases hsp : generateSpeech t.story resp with
            | error e =>
              intro b hb
              simp [handleReadAloud, hp, hst, hbuf, hsp] at hb
            | ok v =>
              cases v with
              | none =>
                intro b hb
                simp [handleReadAloud, hp, hst, hbuf, hsp] at hb
              | some fresh =>
                intro b hb
                simp [handleReadAloud, hp, hst, hbuf, hsp, playBuffer] at hb ⊢
                exact ⟨resp, by rw [hsp, hb]⟩
    | audioEnded =>
      intro b hb
      simp at hb ⊢
      exact ih b hb
    | reset =>
      intro b hb
      simp [handleReset, stopAudio] at hb

/-- Witness for C8: the invariant instantiated at a concrete reachable
state, two user transitions deep (image selected, then read aloud). -/
theorem cachedBuffer_invariant_witness :
    bufferFromCurrentStory
      (handleReadAloud
        (handleImageSelected initialAppState "img" "image/png"
          (generateStoryFromImage "img" "image/png" (Except.ok ⟨some "St"⟩)))
        (generateSpeech
          (handleImageSelected initialAppState "img" "image/png"
            (generateStoryFromImage "img" "image/png" (Except.ok ⟨some "St"⟩))).story
          (Except.ok sampleSpeechResponse)))
    ∧ (handleReset initialAppState).audioBuffer = none :=
  ⟨(cachedBuffer_invariant _).1
      (Reachable.step
        (Reachable.step Reachable.init
          (Step.imageSelected initialAppState "img" "image/png" (Except.ok ⟨some "St"⟩)))
        (Step.readAloud _ (Except.ok sampleSpeechResponse))),
   (cachedBuffer_invariant initialAppState).2.1⟩

end Muse
